import Mathlib

/-!
Shallow embedding of `github-pr-lifetime-metrics` (TypeScript, two script
variants) in Lean 4.

Modelling conventions:
* JS numbers are modelled as `ℚ` (the computations here are exact in
  floating point as well: millisecond differences divided by 1000).
* `Date.getTime()` values are modelled as `Int` milliseconds since epoch;
  a parsed `Date` field of a record is carried directly as its timestamp.
* `fetch` of the paginated pull-request listing is modelled mock-style: the
  loop consumes a sequence of `PageResponse`s, one per request, in order.
  Running out of responses while a next-page URL is pending is the
  `noResponse` network failure.
* `fetch` of the per-PR review listing is modelled as a total environment
  function `String → Nat → ReviewResponse` (source repo name and PR number,
  mirroring the URL the script builds).
* `throw new Error(...)` is modelled with `Except FetchErr`.
* `console.log` warnings inside the metric loop are accumulated in the
  state's `log` field; the number of review fetches issued is counted in
  `fetches`.
-/

/-- The `interface PullRequest` of both scripts: `created_at`, `merged_at`
(nullable), `number`, and `head.repo.name` reachable through the optional
chain `pr.head?.repo?.name` (flattened here to one optional field). -/
structure PullRequest where
  created_at : Int
  merged_at : Option Int
  number : Nat
  headRepoName : Option String
deriving DecidableEq, Repr

/-- The `interface Review`: only `submitted_at` is used. -/
structure Review where
  submitted_at : Int
deriving DecidableEq, Repr

/-- One HTTP response of the pull-request listing endpoint: status code,
JSON body parsed as a list of `PullRequest`s, and the optional `Link`
header. -/
structure PageResponse where
  status : Nat
  records : List PullRequest
  linkHeader : Option String
deriving DecidableEq, Repr

/-- One HTTP response of the review listing endpoint: status code and body
parsed as a list of `Review`s. -/
structure ReviewResponse where
  status : Nat
  reviews : List Review
deriving DecidableEq, Repr

/-- JS test `response.ok`: status in the range 200–299. -/
def respOk (status : Nat) : Bool :=
  200 ≤ status && status < 300

/-- Errors that abort a fetch loop: a thrown
`HTTP error! status: ...` carrying the status, or the mock sequence running
dry while another page was requested. -/
inductive FetchErr where
  | httpError (status : Nat)
  | noResponse
deriving DecidableEq, Repr

/-- JS truthiness of the optional string `pr.head?.repo?.name`:
`undefined`/`null` and the empty string are falsy. -/
def strTruthy : Option String → Bool
  | none => false
  | some s => !s.isEmpty

/-- The sample `(to.getTime() - from.getTime()) / 1000`: a duration sample in seconds
from millisecond timestamps. -/
def durSec (fromMs toMs : Int) : ℚ :=
  ((toMs : ℚ) - (fromMs : ℚ)) / 1000

/-! ### The `Link` header: `includes` and the regex match -/

/-- Whether `pat` is a prefix of `s` (character lists). -/
def isPrefixList : List Char → List Char → Bool
  | [], _ => true
  | _ :: _, [] => false
  | p :: ps, c :: cs => p = c && isPrefixList ps cs

/-- JS call `s.includes(pat)`: `pat` occurs as a contiguous substring of `s`. -/
def hasSubstr (pat : List Char) : List Char → Bool
  | [] => isPrefixList pat []
  | c :: cs => isPrefixList pat (c :: cs) || hasSubstr pat cs

/-- The literal suffix the regex requires right after the captured URL:
the characters of `>; rel="next"`. -/
def relNextSuffix : List Char :=
  ('>' :: ';' :: ' ' :: [] ) ++ "rel=\"next\"".toList

/-- The substring tested by `linkHeader.includes('rel="next"')`. -/
def relNextLit : List Char :=
  "rel=\"next\"".toList

/-- Attempt of the regex `/<([^>]+)>; rel="next"/` anchored at the head of
`s`: a `<`, a nonempty run of non-`>` characters (the capture), then the
literal `>; rel="next"`. -/
def matchNextAt : List Char → Option String
  | [] => none
  | c :: cs =>
    if c = '<' then
      let body := cs.takeWhile (fun d => d ≠ '>')
      let after := cs.dropWhile (fun d => d ≠ '>')
      if body.isEmpty then none
      else if isPrefixList relNextSuffix after then some (String.mk body)
      else none
    else none

/-- The call `linkHeader.match(/<([^>]+)>; rel="next"/)`: the leftmost match's
capture group, or `none` when the pattern matches nowhere. -/
def findNextUrl : List Char → Option String
  | [] => none
  | c :: cs =>
    match matchNextAt (c :: cs) with
    | some b => some b
    | none => findNextUrl cs

/-- Lines 39–45 of both scripts: the next-page URL derived from the `Link`
header — header present, contains `rel="next"`, and the regex captures a
URL; otherwise `null`. -/
def nextUrlOf (linkHeader : Option String) : Option String :=
  match linkHeader with
  | none => none
  | some h =>
    if hasSubstr relNextLit h.toList then findNextUrl h.toList
    else none

/-! ### Pagination loops -/

/-- The strict pagination loop of `getGitHubPrMetrics` (both variants,
lines 31–46): each response must be OK or the whole run throws; records
accumulate in order; the loop continues exactly while a next URL is
extracted. Returns the accumulated records and the number of requests
issued. -/
def paginate : List PageResponse → List PullRequest → Nat →
    Except FetchErr (List PullRequest × Nat)
  | [], _, _ => .error .noResponse
  | r :: rest, acc, n =>
    if respOk r.status then
      match nextUrlOf r.linkHeader with
      | some _ => paginate rest (acc ++ r.records) (n + 1)
      | none => .ok (acc ++ r.records, n + 1)
    else .error (.httpError r.status)

/-- The 404-tolerant pagination loop of `main` in `main.ts`
(lines 119–139): a 404 logs `Repository not found` and breaks out of the
loop for that repository, keeping what was accumulated; any other non-OK
status throws. -/
def paginateTolerant : List PageResponse → List PullRequest → Nat →
    Except FetchErr (List PullRequest × Nat)
  | [], _, _ => .error .noResponse
  | r :: rest, acc, n =>
    if respOk r.status then
      match nextUrlOf r.linkHeader with
      | some _ => paginateTolerant rest (acc ++ r.records) (n + 1)
      | none => .ok (acc ++ r.records, n + 1)
    else if r.status = 404 then .ok (acc, n + 1)
    else .error (.httpError r.status)

/-- The fetch-all phase of `main` in `main.ts` (lines 117–140): one
404-tolerant pagination per repository, all records concatenated into
`allPullRequests` in repository order. Each repository is represented by
its mock response sequence. -/
def runRepos : List (List PageResponse) → Except FetchErr (List PullRequest)
  | [] => .ok []
  | w :: ws =>
    match paginateTolerant w [] 0 with
    | .error e => .error e
    | .ok (recs, _) =>
      match runRepos ws with
      | .error e => .error e
      | .ok rest => .ok (recs ++ rest)

/-- All records of a page sequence, in page order. -/
def allRecords (pages : List PageResponse) : List PullRequest :=
  pages.foldr (fun r acc => r.records ++ acc) []

/-! ### The aggregator -/

/-- Function `calculateAverageTime` (identical in both scripts): 0 for an empty
list, otherwise `reduce`-sum divided by length. -/
def calculateAverageTime (timeList : List ℚ) : ℚ :=
  if timeList.length = 0 then 0
  else timeList.foldl (fun acc time => acc + time) 0 / timeList.length

/-! ### Metric extraction -/

/-- A `console.log` line emitted inside the metric loop: the
`Warning: Repo name not found for PR #n` warning, or the
`Review not found for PR #n in repoName` 404 notice. -/
inductive LogEntry where
  | warnNoRepo (prNumber : Nat)
  | reviewNotFound (prNumber : Nat) (repoName : String)
deriving DecidableEq, Repr

/-- Loop state of the three-list variant (`part_000`): the three sample
lists, the log lines emitted, and the number of review fetches issued. -/
structure MetricState3 where
  reviewTimes : List ℚ
  mergeTimes : List ℚ
  reviewCycleTimes : List ℚ
  log : List LogEntry
  fetches : Nat
deriving DecidableEq, Repr

/-- Empty initial state of the three-list loop. -/
def initState3 : MetricState3 :=
  ⟨[], [], [], [], 0⟩

/-- One iteration of the `for (const pr of allPullRequests)` loop of the
three-list variant (`part_000`, lines 52–88): window filter, merge sample,
repo-name guard, review fetch with its 404/throw policy, first-review
sample, and the review-cycle sample when both a first review and a merge
exist. -/
def processPr3 (env : String → Nat → ReviewResponse) (startDate endDate : Int)
    (s : MetricState3) (pr : PullRequest) : Except FetchErr MetricState3 :=
  let createdAt := pr.created_at
  let mergedAt := pr.merged_at
  if startDate ≤ createdAt ∧ createdAt ≤ endDate then
    let s :=
      match mergedAt with
      | some m => { s with mergeTimes := s.mergeTimes ++ [durSec createdAt m] }
      | none => s
    match pr.headRepoName with
    | none => .ok { s with log := s.log ++ [.warnNoRepo pr.number] }
    | some rn =>
      if rn.isEmpty then .ok { s with log := s.log ++ [.warnNoRepo pr.number] }
      else
        let resp := env rn pr.number
        let s := { s with fetches := s.fetches + 1 }
        if respOk resp.status then
          match resp.reviews with
          | [] => .ok s
          | first :: _ =>
            let s := { s with
              reviewTimes := s.reviewTimes ++ [durSec createdAt first.submitted_at] }
            match mergedAt with
            | some m =>
              .ok { s with
                reviewCycleTimes :=
                  s.reviewCycleTimes ++ [durSec first.submitted_at m] }
            | none => .ok s
        else if resp.status = 404 then
          .ok { s with log := s.log ++ [.reviewNotFound pr.number rn] }
        else
          .error (.httpError resp.status)
  else
    .ok s

/-- The whole PR loop of the three-list variant: iterate `processPr3` left
to right, propagating a thrown error. -/
def runPrs3 (env : String → Nat → ReviewResponse) (startDate endDate : Int)
    (s : MetricState3) : List PullRequest → Except FetchErr MetricState3
  | [] => .ok s
  | pr :: rest =>
    match processPr3 env startDate endDate s pr with
    | .ok s' => runPrs3 env startDate endDate s' rest
    | .error e => .error e

/-- Function `getGitHubPrMetrics` of `part_000`: strict pagination of all closed
PRs, then the three-list metric loop over them from the empty state. -/
def getGitHubPrMetrics3 (responses : List PageResponse)
    (env : String → Nat → ReviewResponse) (startDate endDate : Int) :
    Except FetchErr MetricState3 :=
  match paginate responses [] 0 with
  | .error e => .error e
  | .ok (prs, _) => runPrs3 env startDate endDate initState3 prs

/-- Loop state of the two-list variant (`main.ts`, lines 48–84): review and
merge sample lists, log, and review-fetch count. -/
structure MetricState2 where
  reviewTimes : List ℚ
  mergeTimes : List ℚ
  log : List LogEntry
  fetches : Nat
deriving DecidableEq, Repr

/-- Empty initial state of the two-list loop. -/
def initState2 : MetricState2 :=
  ⟨[], [], [], 0⟩

/-- One iteration of the PR loop of `getGitHubPrMetrics` in `main.ts`
(lines 50–82): identical to the three-list variant except that no
review-cycle sample exists. -/
def processPr2 (env : String → Nat → ReviewResponse) (startDate endDate : Int)
    (s : MetricState2) (pr : PullRequest) : Except FetchErr MetricState2 :=
  let createdAt := pr.created_at
  let mergedAt := pr.merged_at
  if startDate ≤ createdAt ∧ createdAt ≤ endDate then
    let s :=
      match mergedAt with
      | some m => { s with mergeTimes := s.mergeTimes ++ [durSec createdAt m] }
      | none => s
    match pr.headRepoName with
    | none => .ok { s with log := s.log ++ [.warnNoRepo pr.number] }
    | some rn =>
      if rn.isEmpty then .ok { s with log := s.log ++ [.warnNoRepo pr.number] }
      else
        let resp := env rn pr.number
        let s := { s with fetches := s.fetches + 1 }
        if respOk resp.status then
          match resp.reviews with
          | [] => .ok s
          | first :: _ =>
            .ok { s with
              reviewTimes := s.reviewTimes ++ [durSec createdAt first.submitted_at] }
        else if resp.status = 404 then
          .ok { s with log := s.log ++ [.reviewNotFound pr.number rn] }
        else
          .error (.httpError resp.status)
  else
    .ok s

/-- The whole PR loop of the two-list variant. -/
def runPrs2 (env : String → Nat → ReviewResponse) (startDate endDate : Int)
    (s : MetricState2) : List PullRequest → Except FetchErr MetricState2
  | [] => .ok s
  | pr :: rest =>
    match processPr2 env startDate endDate s pr with
    | .ok s' => runPrs2 env startDate endDate s' rest
    | .error e => .error e

/-- Function `getGitHubPrMetrics` of `main.ts` (lines 16–85): strict pagination,
then the two-list metric loop from the empty state. -/
def getGitHubPrMetrics2 (responses : List PageResponse)
    (env : String → Nat → ReviewResponse) (startDate endDate : Int) :
    Except FetchErr MetricState2 :=
  match paginate responses [] 0 with
  | .error e => .error e
  | .ok (prs, _) => runPrs2 env startDate endDate initState2 prs

/-- The merge-time contribution of one PR: one sample
`(mergedAt - createdAt)/1000` when `merged_at` is present, nothing
otherwise. -/
def mergeSample (pr : PullRequest) : List ℚ :=
  match pr.merged_at with
  | some m => [durSec pr.created_at m]
  | none => []

/-- Invariant of the three-list state: the review-cycle list is never
longer than the review list or the merge list. -/
def cycleInv (s : MetricState3) : Prop :=
  s.reviewCycleTimes.length ≤ s.reviewTimes.length ∧
  s.reviewCycleTimes.length ≤ s.mergeTimes.length

/-! ### The end-to-end scenario of the spec (§8)

Timestamps in milliseconds since epoch:
2024-01-01T00:00:00Z = 1704067200000, 2024-01-02 = 1704153600000,
2024-01-03 = 1704240000000, 2024-01-05 = 1704412800000,
2024-01-31 = 1706659200000. -/

/-- PR A: created 2024-01-01, merged 2024-01-03. -/
def prA : PullRequest := ⟨1704067200000, some 1704240000000, 1, some "repoA"⟩

/-- PR B: created 2024-01-05, never merged. -/
def prB : PullRequest := ⟨1704412800000, none, 2, some "repoA"⟩

/-- The single listing page holding exactly A and B, no further page. -/
def pageAB : PageResponse := ⟨200, [prA, prB], none⟩

/-- Review environment of the scenario: PR A has one review submitted
2024-01-02, PR B has none. -/
def envAB : String → Nat → ReviewResponse :=
  fun _ n => if n = 1 then ⟨200, [⟨1704153600000⟩]⟩ else ⟨200, []⟩

/-- Witness page 1: OK, one record, well-formed next link. -/
def wp1 : PageResponse :=
  ⟨200, [⟨1, none, 1, none⟩], some "<https://api.github.com/x?page=2>; rel=\"next\""⟩

/-- Witness page 2: OK, one record, well-formed next link. -/
def wp2 : PageResponse :=
  ⟨200, [⟨2, none, 2, none⟩], some "<https://api.github.com/x?page=3>; rel=\"next\""⟩

/-- Witness page 3: OK, one record, no Link header. -/
def wp3 : PageResponse := ⟨200, [⟨3, none, 3, none⟩], none⟩

/-- Witness page with a malformed Link header: it contains the substring
the `includes` test looks for, but the regex captures no URL. -/
def wm : PageResponse := ⟨200, [⟨4, none, 4, none⟩], some "dummy; rel=\"next\""⟩

/-- Witness single-page repository 1. -/
def wg : PageResponse := ⟨200, [⟨10, none, 10, none⟩], none⟩

/-- Witness single-page repository 2. -/
def wg2 : PageResponse := ⟨200, [⟨11, none, 11, none⟩], none⟩

/-- One entry of `detailedMetrics` in `main` of `main.ts` (line 147):
PR number, optional review time, optional merge time, repo name
(the string `N/A` when the head repo name is missing). -/
structure DetailedMetric where
  prNumber : Nat
  reviewTime : Option ℚ
  mergeTime : Option ℚ
  repo : String
deriving DecidableEq, Repr

/-- The `detailedMetrics` loop of `main` in `main.ts` (lines 150–187):
window filter; merge time when merged; on a missing head repo name a
warning is logged and an `N/A` entry pushed; otherwise the review listing
is fetched — 404 skips the record entirely (no entry pushed), any other
non-success throws, success pushes an entry whose review time comes from
the first review if any. -/
def detailedLoop (env : String → Nat → ReviewResponse) (a b : Int)
    (acc : List DetailedMetric) : List PullRequest → Except FetchErr (List DetailedMetric)
  | [] => .ok acc
  | pr :: rest =>
    if a ≤ pr.created_at ∧ pr.created_at ≤ b then
      let mergeTime : Option ℚ :=
        match pr.merged_at with
        | some m => some (durSec pr.created_at m)
        | none => none
      match pr.headRepoName with
      | none => detailedLoop env a b (acc ++ [⟨pr.number, none, mergeTime, "N/A"⟩]) rest
      | some rn =>
        if rn.isEmpty then
          detailedLoop env a b (acc ++ [⟨pr.number, none, mergeTime, "N/A"⟩]) rest
        else
          let resp := env rn pr.number
          if respOk resp.status then
            let reviewTime : Option ℚ :=
              match resp.reviews with
              | [] => none
              | first :: _ => some (durSec pr.created_at first.submitted_at)
            detailedLoop env a b (acc ++ [⟨pr.number, reviewTime, mergeTime, rn⟩]) rest
          else if resp.status = 404 then detailedLoop env a b acc rest
          else .error (.httpError resp.status)
    else detailedLoop env a b acc rest

/-- The averages loop of `main` in `main.ts` (lines 197–205): for each
repository, in order, call the two-list `getGitHubPrMetrics` again — the
STRICT pagination loop, which throws on any non-OK status including 404 —
and print the two averages in hours. Each repository is served the same
mock response sequence as in the fetch-all phase (a persistently missing
repository answers 404 to both paginations). Returns the list of printed
(avgReviewTime/3600, avgMergeTime/3600) pairs, or the thrown error. -/
def averagesLoop (worlds : List (List PageResponse))
    (env : String → Nat → ReviewResponse) (a b : Int) :
    Except FetchErr (List (ℚ × ℚ)) :=
  match worlds with
  | [] => .ok []
  | w :: ws =>
    match getGitHubPrMetrics2 w env a b with
    | .error e => .error e
    | .ok s =>
      match averagesLoop ws env a b with
      | .error e => .error e
      | .ok rest =>
        .ok ((calculateAverageTime s.reviewTimes / 3600,
              calculateAverageTime s.mergeTimes / 3600) :: rest)

/-- The whole `try` block of `main` in `main.ts` (lines 114–205), with the
script's editable constants (repository list, window dates) as parameters:
fetch-all phase with 404-tolerant pagination; early return when no pull
request was collected; the detailedMetrics loop; then the averages loop.
An `Except.error` models the thrown error reaching the top-level `catch`
(line 206), which logs it and ends the run — everything after the throw is
skipped. -/
def mainFixed (worlds : List (List PageResponse))
    (env : String → Nat → ReviewResponse) (a b : Int) :
    Except FetchErr (List DetailedMetric × List (ℚ × ℚ)) :=
  match runRepos worlds with
  | .error e => .error e
  | .ok allPrs =>
    if allPrs.length = 0 then .ok ([], [])
    else
      match detailedLoop env a b [] allPrs with
      | .error e => .error e
      | .ok dm =>
        match averagesLoop worlds env a b with
        | .error e => .error e
        | .ok avgs => .ok (dm, avgs)

/-! ## Claims -/

/-- C1: `calculateAverageTime` returns exactly 0 on an empty list and the
sum of the elements divided by the length on a non-empty list. The
function is total on `List ℚ`, so it always yields a rational number —
never NaN, undefined, or an exception (in this exact model the JS float
computation carries no NaN source for finite inputs). -/
theorem calculateAverageTime_mean :
    calculateAverageTime [] = 0 ∧
    ∀ l : List ℚ, l ≠ [] → calculateAverageTime l = l.sum / l.length := by
  refine ⟨rfl, fun l hl => ?_⟩
  rw [calculateAverageTime, if_neg (by simpa using hl), List.sum_eq_foldl]

/-- Witness for C1 at the list `[1, 2, 3]`: its average is 2. -/
theorem calculateAverageTime_mean_witness :
    calculateAverageTime [(1 : ℚ), 2, 3] = 2 := by
  rw [calculateAverageTime_mean.2 [1, 2, 3] (by simp)]
  norm_num

/-- C2: the end-to-end scenario — a single listing page holding PR A
(created 2024-01-01, merged 2024-01-03, first review 2024-01-02) and PR B
(created 2024-01-05, never merged, no reviews), window
[2024-01-01, 2024-01-31] — produces reviewTimes = [86400],
mergeTimes = [172800], reviewCycleTimes = [86400] seconds, and the
averages in hours are 48 (merge), 24 (first review) and 24 (review
cycle, same singleton list [86400]). -/
theorem metrics_end_to_end_scenario :
    getGitHubPrMetrics3 [pageAB] envAB 1704067200000 1706659200000 =
      .ok ⟨[86400], [172800], [86400], [], 2⟩ ∧
    calculateAverageTime [(172800 : ℚ)] / 3600 = 48 ∧
    calculateAverageTime [(86400 : ℚ)] / 3600 = 24 := by
  refine ⟨?_, by norm_num [calculateAverageTime], by norm_num [calculateAverageTime]⟩
  norm_num [getGitHubPrMetrics3, paginate, runPrs3, processPr3, nextUrlOf, respOk,
    initState3, prA, prB, pageAB, envAB, durSec, show "repoA".isEmpty = false from rfl]

/-- C3: a PR whose creation timestamp is outside the closed window
[startDate, endDate] leaves the loop state of both variants completely
unchanged — it contributes zero entries to every metric list (and no log
line, no fetch), regardless of its other fields. -/
theorem out_of_window_excluded (env : String → Nat → ReviewResponse)
    (a b : Int) (s3 : MetricState3) (s2 : MetricState2) (pr : PullRequest)
    (h : ¬(a ≤ pr.created_at ∧ pr.created_at ≤ b)) :
    processPr3 env a b s3 pr = .ok s3 ∧ processPr2 env a b s2 pr = .ok s2 := by
  simp [processPr3, processPr2, h]

/-- Witness for C3: a PR created at 0 against the window [10, 20]. -/
theorem out_of_window_excluded_witness :
    processPr3 (fun _ _ => ⟨200, []⟩) 10 20 initState3 ⟨0, some 5, 7, some "x"⟩ =
      .ok initState3 ∧
    processPr2 (fun _ _ => ⟨200, []⟩) 10 20 initState2 ⟨0, some 5, 7, some "x"⟩ =
      .ok initState2 :=
  out_of_window_excluded _ 10 20 initState3 initState2 _ (by decide)

/-- C4: an in-window PR whose `head.repo.name` is absent still appends its
merge-time sample (when `merged_at` is present — `mergeSample`), appends
nothing to reviewTimes or reviewCycleTimes, performs no review fetch
(the `fetches` counter is untouched), and logs exactly one warning. Both
variants behave identically. -/
theorem missing_repo_name_behavior (env : String → Nat → ReviewResponse)
    (a b : Int) (s : MetricState3) (s2 : MetricState2) (pr : PullRequest)
    (hw : a ≤ pr.created_at ∧ pr.created_at ≤ b)
    (hn : pr.headRepoName = none) :
    processPr3 env a b s pr =
      .ok { s with mergeTimes := s.mergeTimes ++ mergeSample pr,
                   log := s.log ++ [.warnNoRepo pr.number] } ∧
    processPr2 env a b s2 pr =
      .ok { s2 with mergeTimes := s2.mergeTimes ++ mergeSample pr,
                    log := s2.log ++ [.warnNoRepo pr.number] } := by
  cases hm : pr.merged_at <;>
    simp [processPr3, processPr2, mergeSample, hw, hn, hm]

/-- Witness for C4: an in-window merged PR with no repo name. -/
theorem missing_repo_name_behavior_witness :
    processPr3 (fun _ _ => ⟨200, []⟩) 0 10 initState3 ⟨0, some 5000, 7, none⟩ =
      .ok { initState3 with
        mergeTimes := initState3.mergeTimes ++ mergeSample ⟨0, some 5000, 7, none⟩,
        log := initState3.log ++ [.warnNoRepo 7] } ∧
    processPr2 (fun _ _ => ⟨200, []⟩) 0 10 initState2 ⟨0, some 5000, 7, none⟩ =
      .ok { initState2 with
        mergeTimes := initState2.mergeTimes ++ mergeSample ⟨0, some 5000, 7, none⟩,
        log := initState2.log ++ [.warnNoRepo 7] } :=
  missing_repo_name_behavior _ 0 10 initState3 initState2 _ (by decide) rfl

/-- C5: a PR with `merged_at = null` never extends mergeTimes nor
reviewCycleTimes, whatever the window, the repo name, or the review fetch
outcome (a reviewTimes entry may still be appended). -/
theorem unmerged_pr_no_merge_or_cycle (env : String → Nat → ReviewResponse)
    (a b : Int) (s s' : MetricState3) (pr : PullRequest)
    (hm : pr.merged_at = none)
    (h : processPr3 env a b s pr = .ok s') :
    s'.mergeTimes = s.mergeTimes ∧ s'.reviewCycleTimes = s.reviewCycleTimes := by
  simp only [processPr3, hm] at h
  repeat' split at h
  all_goals first
    | (injection h with h; subst h; exact ⟨rfl, rfl⟩)
    | cases h

/-- Witness for C5: an in-window unmerged PR whose review fetch returns one
review — reviewTimes gains a sample while mergeTimes and reviewCycleTimes
stay empty. -/
theorem unmerged_pr_no_merge_or_cycle_witness :
    (MetricState3.mk [durSec 0 5000] [] [] [] 1).mergeTimes = initState3.mergeTimes ∧
    (MetricState3.mk [durSec 0 5000] [] [] [] 1).reviewCycleTimes =
      initState3.reviewCycleTimes :=
  unmerged_pr_no_merge_or_cycle (fun _ _ => ⟨200, [⟨5000⟩]⟩) 0 10 initState3
    ⟨[durSec 0 5000], [], [], [], 1⟩ ⟨0, none, 2, some "r"⟩ rfl
    (by norm_num [processPr3, initState3, respOk, show ("r").isEmpty = false from rfl])

/-- Helper for C6: a run of OK pages that each yield a next-page URL,
closed by an OK page that yields none, consumes every page in order,
one request per page. -/
theorem paginate_chain (last : PageResponse)
    (hl : respOk last.status = true) (hn : nextUrlOf last.linkHeader = none) :
    ∀ (init : List PageResponse) (acc : List PullRequest) (n : Nat),
      (∀ r ∈ init, respOk r.status = true ∧ (nextUrlOf r.linkHeader).isSome) →
      paginate (init ++ [last]) acc n =
        .ok (acc ++ allRecords (init ++ [last]), n + init.length + 1) := by
  intro init
  induction init with
  | nil =>
    intro acc n _
    simp [paginate, hl, hn, allRecords]
  | cons r init ih =>
    intro acc n h
    obtain ⟨hr, hs⟩ := h r (by simp)
    obtain ⟨u, hu⟩ := Option.isSome_iff_exists.mp hs
    have hrest : ∀ x ∈ init, respOk x.status = true ∧ (nextUrlOf x.linkHeader).isSome :=
      fun x hx => h x (by simp [hx])
    simp only [List.cons_append, paginate, hr, hu, if_true, List.append_eq]
    rw [ih (acc ++ r.records) (n + 1) hrest]
    simp [allRecords, List.append_assoc]
    omega

/-- C6: for a page sequence whose every response is successful, where every
page but the last yields a well-formed `rel="next"` URL and the last yields
none, the pagination loop issues exactly one request per page and returns
the concatenation of all pages' records in page order. -/
theorem pagination_consumes_all_pages (pages init : List PageResponse)
    (last : PageResponse) (hsplit : pages = init ++ [last])
    (hok : ∀ r ∈ pages, respOk r.status = true)
    (hnext : ∀ r ∈ init, (nextUrlOf r.linkHeader).isSome)
    (hlast : nextUrlOf last.linkHeader = none) :
    paginate pages [] 0 = .ok (allRecords pages, pages.length) := by
  subst hsplit
  have h := paginate_chain last (hok last (by simp)) hlast init [] 0
    (fun r hr => ⟨hok r (by simp [hr]), hnext r hr⟩)
  simpa using h

/-- Witness for C6: a concrete 3-page sequence — 3 requests, all records
in order. -/
theorem pagination_consumes_all_pages_witness :
    paginate [wp1, wp2, wp3] [] 0 = .ok (allRecords [wp1, wp2, wp3], 3) :=
  pagination_consumes_all_pages [wp1, wp2, wp3] [wp1, wp2] wp3 rfl
    (by decide) (by decide) (by decide)

/-- C9: a successful response whose `Link` header contains the substring
`rel="next"` but from which the regex `<URL>; rel="next"` captures no URL
terminates the pagination loop normally after that page — the records
accumulated so far (including this page's) are returned, no error. -/
theorem malformed_next_link_stops (r : PageResponse) (rest : List PageResponse)
    (acc : List PullRequest) (n : Nat) (hdr : String)
    (hok : respOk r.status = true)
    (hh : r.linkHeader = some hdr)
    (hsub : hasSubstr relNextLit hdr.toList = true)
    (hfind : findNextUrl hdr.toList = none) :
    paginate (r :: rest) acc n = .ok (acc ++ r.records, n + 1) := by
  have hsub' : hasSubstr relNextLit hdr.data = true := hsub
  have hfind' : findNextUrl hdr.data = none := hfind
  simp [paginate, hok, nextUrlOf, hh, hsub', hfind']

/-- Witness for C9: the malformed header `dummy; rel="next"` (no
angle-bracketed URL) stops pagination without an error. -/
theorem malformed_next_link_stops_witness :
    paginate [wm] [] 0 = .ok ([] ++ wm.records, 1) :=
  malformed_next_link_stops wm [] [] 0 "dummy; rel=\"next\"" rfl rfl
    (by decide) (by decide)

/-- Helper for C8: the per-repository fetch-all loop distributes over
concatenation of repository lists. -/
theorem runRepos_append (xs ys : List (List PageResponse)) :
    runRepos (xs ++ ys) =
      match runRepos xs with
      | .error e => .error e
      | .ok a =>
        match runRepos ys with
        | .error e => .error e
        | .ok b => .ok (a ++ b) := by
  induction xs with
  | nil =>
    simp only [List.nil_append, runRepos]
    cases runRepos ys <;> simp
  | cons w ws ih =>
    simp only [List.cons_append, runRepos, List.append_eq]
    cases paginateTolerant w [] 0 with
    | error e => rfl
    | ok p =>
      rw [ih]
      cases runRepos ws <;> cases runRepos ys <;> simp [List.append_assoc]

/-- Helper for C8: the 404-tolerant loop over OK pages with next links,
then a 404 page, breaks at the 404 keeping the records accumulated up to
it. -/
theorem paginateTolerant_chain (r : PageResponse) (rest : List PageResponse)
    (h404 : r.status = 404) :
    ∀ (gs : List PageResponse) (acc : List PullRequest) (n : Nat),
      (∀ g ∈ gs, respOk g.status = true ∧ (nextUrlOf g.linkHeader).isSome) →
      paginateTolerant (gs ++ r :: rest) acc n =
        .ok (acc ++ allRecords gs, n + gs.length + 1) := by
  intro gs
  induction gs with
  | nil =>
    intro acc n _
    simp [paginateTolerant, h404, show respOk 404 = false from rfl, allRecords]
  | cons g gs ih =>
    intro acc n h
    obtain ⟨hg, hs⟩ := h g (by simp)
    obtain ⟨u, hu⟩ := Option.isSome_iff_exists.mp hs
    have hrest : ∀ x ∈ gs, respOk x.status = true ∧ (nextUrlOf x.linkHeader).isSome :=
      fun x hx => h x (by simp [hx])
    simp only [List.cons_append, paginateTolerant, hg, hu, if_true, List.append_eq]
    rw [ih (acc ++ g.records) (n + 1) hrest]
    simp [allRecords, List.append_assoc]
    omega

/-- C8 (amended): in the fetch-all phase of `main` in `main.ts`, a 404 at
any point of one repository's pull-request listing pagination only breaks
that repository's loop: the repository contributes exactly the records of
the pages fetched before the 404, the fetch-all phase does not fail
because of it, and the remaining repositories' fetches complete. (The
original run-level statement is false of the program: the later averages
loop re-paginates every repository with the strict loop, which throws on a
persisting 404 — see the counterexample below.) -/
theorem repo_404_tolerated (pre post : List (List PageResponse))
    (gs : List PageResponse) (r : PageResponse) (rest : List PageResponse)
    (hgs : ∀ g ∈ gs, respOk g.status = true ∧ (nextUrlOf g.linkHeader).isSome)
    (h404 : r.status = 404) :
    runRepos (pre ++ (gs ++ r :: rest) :: post) =
      match runRepos pre with
      | .error e => .error e
      | .ok a =>
        match runRepos post with
        | .error e => .error e
        | .ok b => .ok (a ++ (allRecords gs ++ b)) := by
  have htol := paginateTolerant_chain r rest h404 gs [] 0 hgs
  rw [runRepos_append]
  simp only [runRepos, htol, List.nil_append]
  cases runRepos pre <;> cases runRepos post <;> simp

/-- Witness for C8: a 404 repository between two good repositories — the
run succeeds with the two good repositories' records. -/
theorem repo_404_tolerated_witness :
    runRepos [[wg], [⟨404, [], none⟩], [wg2]] =
      .ok ([⟨10, none, 10, none⟩] ++ [⟨11, none, 11, none⟩]) :=
  (repo_404_tolerated [[wg]] [[wg2]] [] ⟨404, [], none⟩ [] (by simp) rfl).trans
    (by rfl)

/-- C8 counterexample, refuting the claim's run-level part on the code:
with the script's actual window constants, a persistently missing
repository (its listing endpoint answers 404 to every request, in both
phases) followed by a good repository makes the whole run abort — the
fetch-all phase tolerates the 404, but the averages loop re-fetches the
missing repository through the strict pagination loop, whose thrown
HTTP 404 error reaches the top-level catch, so the good repository's
averages are never produced. The same run without the missing repository
completes normally, so the run fails precisely because of the 404. -/
theorem repo_404_whole_run_cex :
    mainFixed [[⟨404, [], none⟩], [⟨200, [⟨0, none, 9, none⟩], none⟩]]
        (fun _ _ => ⟨200, []⟩) 1704067200000 1738368000000 =
      .error (.httpError 404) ∧
    mainFixed [[⟨200, [⟨0, none, 9, none⟩], none⟩]]
        (fun _ _ => ⟨200, []⟩) 1704067200000 1738368000000 =
      .ok ([], [(0, 0)]) := by
  constructor
  · rfl
  · norm_num [mainFixed, runRepos, paginateTolerant, respOk, nextUrlOf, detailedLoop,
      averagesLoop, getGitHubPrMetrics2, paginate, runPrs2, processPr2, initState2,
      calculateAverageTime]

/-- C7: for an in-window PR with a usable source repo name, a 404 from the
review-listing endpoint only skips that PR's review metrics (one log line,
merge sample kept, review and cycle lists untouched) and the loop proceeds
with the remaining PRs from exactly that state; any other non-success
status makes the whole loop abort with the thrown error. -/
theorem review_fetch_404_and_error_policy (env : String → Nat → ReviewResponse)
    (a b : Int) (s : MetricState3) (pr : PullRequest) (rest : List PullRequest)
    (rn : String)
    (hw : a ≤ pr.created_at ∧ pr.created_at ≤ b)
    (hrn : pr.headRepoName = some rn) (hne : rn.isEmpty = false) :
    ((env rn pr.number).status = 404 →
      processPr3 env a b s pr =
        .ok { s with mergeTimes := s.mergeTimes ++ mergeSample pr,
                     log := s.log ++ [.reviewNotFound pr.number rn],
                     fetches := s.fetches + 1 } ∧
      runPrs3 env a b s (pr :: rest) =
        runPrs3 env a b
          { s with mergeTimes := s.mergeTimes ++ mergeSample pr,
                   log := s.log ++ [.reviewNotFound pr.number rn],
                   fetches := s.fetches + 1 } rest) ∧
    (respOk (env rn pr.number).status = false → (env rn pr.number).status ≠ 404 →
      runPrs3 env a b s (pr :: rest) = .error (.httpError (env rn pr.number).status)) := by
  constructor
  · intro h404
    have hp : processPr3 env a b s pr =
        .ok { s with mergeTimes := s.mergeTimes ++ mergeSample pr,
                     log := s.log ++ [.reviewNotFound pr.number rn],
                     fetches := s.fetches + 1 } := by
      cases hm : pr.merged_at <;>
        simp [processPr3, hw, hrn, hne, hm, mergeSample, h404, respOk]
    exact ⟨hp, by simp [runPrs3, hp]⟩
  · intro hnok h404
    have hp : processPr3 env a b s pr =
        .error (.httpError (env rn pr.number).status) := by
      cases hm : pr.merged_at <;>
        simp [processPr3, hw, hrn, hne, hm, hnok, h404]
    simp [runPrs3, hp]

/-- Witness for C7: an in-window PR whose review fetch yields 404 — full
policy statement instantiated at that concrete environment. -/
theorem review_fetch_404_and_error_policy_witness :
    (((fun _ n => if n = 1 then ⟨404, []⟩ else ⟨500, []⟩ :
        String → Nat → ReviewResponse) "r" 1).status = 404 →
      processPr3 (fun _ n => if n = 1 then ⟨404, []⟩ else ⟨500, []⟩) 0 10
          initState3 ⟨0, none, 1, some "r"⟩ =
        .ok { initState3 with
              mergeTimes := initState3.mergeTimes ++ mergeSample ⟨0, none, 1, some "r"⟩,
              log := initState3.log ++ [.reviewNotFound 1 "r"],
              fetches := initState3.fetches + 1 } ∧
      runPrs3 (fun _ n => if n = 1 then ⟨404, []⟩ else ⟨500, []⟩) 0 10
          initState3 [⟨0, none, 1, some "r"⟩] =
        runPrs3 (fun _ n => if n = 1 then ⟨404, []⟩ else ⟨500, []⟩) 0 10
          { initState3 with
            mergeTimes := initState3.mergeTimes ++ mergeSample ⟨0, none, 1, some "r"⟩,
            log := initState3.log ++ [.reviewNotFound 1 "r"],
            fetches := initState3.fetches + 1 } []) ∧
    (respOk (((fun _ n => if n = 1 then ⟨404, []⟩ else ⟨500, []⟩ :
        String → Nat → ReviewResponse) "r" 1).status) = false →
      (((fun _ n => if n = 1 then ⟨404, []⟩ else ⟨500, []⟩ :
        String → Nat → ReviewResponse) "r" 1).status) ≠ 404 →
      runPrs3 (fun _ n => if n = 1 then ⟨404, []⟩ else ⟨500, []⟩) 0 10
          initState3 [⟨0, none, 1, some "r"⟩] =
        .error (.httpError (((fun _ n => if n = 1 then ⟨404, []⟩ else ⟨500, []⟩ :
          String → Nat → ReviewResponse) "r" 1).status))) :=
  review_fetch_404_and_error_policy
    (fun _ n => if n = 1 then ⟨404, []⟩ else ⟨500, []⟩) 0 10 initState3
    ⟨0, none, 1, some "r"⟩ [] "r" (by decide) rfl rfl

/-- Helper for C10: one loop iteration preserves the length invariant — a
review-cycle sample is appended only in the branch that also appends a
review sample and whose merge branch appended a merge sample. -/
theorem processPr3_inv (env : String → Nat → ReviewResponse) (a b : Int)
    (s s' : MetricState3) (pr : PullRequest) (hs : cycleInv s)
    (h : processPr3 env a b s pr = .ok s') : cycleInv s' := by
  simp only [processPr3] at h
  repeat' split at h
  all_goals try (injection h with h; subst h)
  all_goals first
    | (simp [cycleInv] at hs ⊢; omega)
    | simp_all

/-- Helper for C10: the whole loop preserves the length invariant. -/
theorem runPrs3_inv (env : String → Nat → ReviewResponse) (a b : Int) :
    ∀ (prs : List PullRequest) (s s' : MetricState3), cycleInv s →
      runPrs3 env a b s prs = .ok s' → cycleInv s'
  | [] => by
    intro s s' hs h
    simp only [runPrs3] at h
    injection h with h
    subst h
    exact hs
  | pr :: rest => by
    intro s s' hs h
    simp only [runPrs3] at h
    cases hp : processPr3 env a b s pr with
    | error e => rw [hp] at h; cases h
    | ok sm =>
      rw [hp] at h
      exact runPrs3_inv env a b rest sm s' (processPr3_inv env a b s sm pr hs hp) h

/-- C10: whenever the three-list variant returns, the review-cycle list is
no longer than the review list and no longer than the merge list. -/
theorem cycle_times_length_le (responses : List PageResponse)
    (env : String → Nat → ReviewResponse) (a b : Int) (s : MetricState3)
    (h : getGitHubPrMetrics3 responses env a b = .ok s) :
    s.reviewCycleTimes.length ≤ s.reviewTimes.length ∧
    s.reviewCycleTimes.length ≤ s.mergeTimes.length := by
  simp only [getGitHubPrMetrics3] at h
  cases hp : paginate responses [] 0 with
  | error e => rw [hp] at h; cases h
  | ok p =>
    rw [hp] at h
    exact runPrs3_inv env a b p.1 initState3 s (by simp [cycleInv, initState3]) h

/-- Witness for C10: a run over one empty page returns the empty state,
whose list lengths satisfy the invariant. -/
theorem cycle_times_length_le_witness :
    initState3.reviewCycleTimes.length ≤ initState3.reviewTimes.length ∧
    initState3.reviewCycleTimes.length ≤ initState3.mergeTimes.length :=
  cycle_times_length_le [⟨200, [], none⟩] (fun _ _ => ⟨200, []⟩) 0 10 initState3 rfl
